import Mathlib

/-!
Shallow embedding of the Telemetrix-AIO protocol client
(`telemetrix_aio/telemetrix_aio.py`).

The client talks to a microcontroller over a length-prefixed binary
protocol.  Pure parts (frame encoding/decoding, IEEE-754 binary32
reassembly) are embedded as Lean functions on `List Nat`; the stateful
client object is embedded as an explicit record `TState` and each
method as a state transformer returning the new state together with an
optional Python exception.  Caller-supplied callbacks are opaque
handler references, embedded as natural-number identifiers; a callback
invocation is recorded as the pair of the handler identifier and the
message list it receives.

The `private_constants` module and the two transport modules
(`telemtrix_aio_serial`, `telemetrix_aio_socket`) are not part of the
sources being verified; the definitions that stand in for them carry
doc comments starting with `Modelled from the spec:`.
-/

namespace PrivateConstants

/-- Modelled from the spec: command identifier from the missing `private_constants`
module; only distinctness of identifiers is relied upon. -/
def LOOP_COMMAND : Nat := 0

/-- Modelled from the spec: command identifier from the missing `private_constants` module. -/
def SET_PIN_MODE : Nat := 1

/-- Modelled from the spec: command identifier from the missing `private_constants` module. -/
def DIGITAL_WRITE : Nat := 2

/-- Modelled from the spec: command identifier from the missing `private_constants` module. -/
def ANALOG_WRITE : Nat := 3

/-- Modelled from the spec: command identifier from the missing `private_constants` module. -/
def MODIFY_REPORTING : Nat := 4

/-- Modelled from the spec: command identifier from the missing `private_constants` module. -/
def GET_FIRMWARE_VERSION : Nat := 5

/-- Modelled from the spec: command identifier from the missing `private_constants` module. -/
def ARE_U_THERE : Nat := 6

/-- Modelled from the spec: command identifier from the missing `private_constants` module. -/
def SERVO_ATTACH : Nat := 7

/-- Modelled from the spec: command identifier from the missing `private_constants` module. -/
def SERVO_WRITE : Nat := 8

/-- Modelled from the spec: command identifier from the missing `private_constants` module. -/
def SERVO_DETACH : Nat := 9

/-- Modelled from the spec: command identifier from the missing `private_constants` module. -/
def I2C_BEGIN : Nat := 10

/-- Modelled from the spec: command identifier from the missing `private_constants` module. -/
def I2C_READ : Nat := 11

/-- Modelled from the spec: command identifier from the missing `private_constants` module. -/
def I2C_WRITE : Nat := 12

/-- Modelled from the spec: command identifier from the missing `private_constants` module. -/
def SONAR_NEW : Nat := 13

/-- Modelled from the spec: command identifier from the missing `private_constants` module. -/
def DHT_NEW : Nat := 14

/-- Modelled from the spec: command identifier from the missing `private_constants` module. -/
def STOP_ALL_REPORTS : Nat := 15

/-- Modelled from the spec: command identifier from the missing `private_constants` module. -/
def SET_ANALOG_SCANNING_INTERVAL : Nat := 16

/-- Modelled from the spec: command identifier from the missing `private_constants` module. -/
def ENABLE_ALL_REPORTS : Nat := 17

/-- Modelled from the spec: command identifier from the missing `private_constants` module. -/
def RESET : Nat := 18

/-- Modelled from the spec: report identifier from the missing `private_constants`
module; the ten report identifiers keyed in `report_dispatch` are distinct. -/
def DIGITAL_REPORT : Nat := 2

/-- Modelled from the spec: report identifier from the missing `private_constants` module. -/
def ANALOG_REPORT : Nat := 3

/-- Modelled from the spec: report identifier from the missing `private_constants` module. -/
def SERVO_UNAVAILABLE : Nat := 7

/-- Modelled from the spec: report identifier from the missing `private_constants` module. -/
def I2C_TOO_FEW_BYTES_RCVD : Nat := 8

/-- Modelled from the spec: report identifier from the missing `private_constants` module. -/
def I2C_TOO_MANY_BYTES_RCVD : Nat := 9

/-- Modelled from the spec: report identifier from the missing `private_constants` module. -/
def I2C_READ_REPORT : Nat := 10

/-- Modelled from the spec: report identifier from the missing `private_constants` module. -/
def SONAR_DISTANCE : Nat := 11

/-- Modelled from the spec: report identifier from the missing `private_constants` module. -/
def DHT_REPORT : Nat := 12

/-- Modelled from the spec: report identifier from the missing `private_constants` module. -/
def DEBUG_PRINT : Nat := 99

/-- Modelled from the spec: pin-mode identifier from the missing `private_constants`
module; value taken from the source docstring (digital input pins = 0). -/
def AT_INPUT : Nat := 0

/-- Modelled from the spec: pin-mode identifier from the missing `private_constants` module. -/
def AT_OUTPUT : Nat := 1

/-- Modelled from the spec: pin-mode identifier from the missing `private_constants`
module; value taken from the source docstring (analog input pins = 2). -/
def AT_ANALOG : Nat := 2

/-- Modelled from the spec: pin-mode identifier from the missing `private_constants`
module; value taken from the source docstring (digital input with pullup = 11). -/
def AT_INPUT_PULLUP : Nat := 11

/-- Modelled from the spec: bound for the sonar device class, absent from the
sources (`private_constants` module); the claims settled here do not depend
on the particular value. -/
def MAX_SONARS : Nat := 6

/-- Modelled from the spec: bound for the DHT device class, absent from the
sources (`private_constants` module); the claims settled here do not depend
on the particular value. -/
def MAX_DHTS : Nat := 6

end PrivateConstants

/-- The Python exceptions that the embedded methods can raise. -/
inductive PyExc where
  | keyError
  | typeError
  | indexError
  | valueError
  | attributeError
  | serialException
  | structError
  | runtimeError (msg : String)
deriving DecidableEq, Repr

/-- An opaque caller-supplied handler reference (Python function object). -/
abbrev Cb := Nat

/--
Embedding of the mutable state of a `TelemetrixAIO` instance: the
callback registries, the i2c activation flags, the bounded device
counters, the shutdown flag, and the configuration/transport booleans
consulted by the methods.  `sent` records every frame written to the
transport, in order.  `ip_address` mirrors the truthiness of
`self.ip_address`; `serial_port` and `sock` mirror whether those
transport objects exist; `serial_closed` is the serial channel state.
-/
structure TState where
  analog_callbacks : List (Nat × Cb) := []
  digital_callbacks : List (Nat × Cb) := []
  dht_callbacks : List (Nat × Cb) := []
  sonar_callbacks : List (Nat × Cb) := []
  i2c_callback : Option Cb := none
  i2c_callback2 : Option Cb := none
  i2c_1_active : Bool := false
  i2c_2_active : Bool := false
  loop_back_callback : Option Cb := none
  sonar_count : Nat := 0
  dht_count : Nat := 0
  shutdown_flag : Bool := false
  shutdown_on_exception : Bool := true
  close_loop_on_shutdown : Bool := true
  ip_address : Bool := false
  serial_port : Bool := false
  serial_closed : Bool := false
  sock : Bool := false
  the_task : Bool := false
  loop_stopped : Bool := false
  sent : List (List Nat) := []
deriving DecidableEq, Repr

/-- Python dict lookup `d[k]` on an association list (first binding wins). -/
def alGet : List (Nat × Cb) → Nat → Option Cb
  | [], _ => none
  | (k, v) :: rest, key => if key = k then some v else alGet rest key

/-- Python dict assignment `d[k] = v`, up to `alGet`-equivalence: the new
binding shadows any earlier one. -/
def alPut (l : List (Nat × Cb)) (k : Nat) (v : Cb) : List (Nat × Cb) :=
  (k, v) :: l

/--
Embedding of the frame built by `_send_command` (telemetrix_aio.py,
lines 1111-1123): `command.insert(0, len(command))`, i.e. the length of
the command list is prepended as the first byte.
-/
def send_command_frame (command : List Nat) : List Nat :=
  command.length :: command

/--
Embedding of the byte-level encoder of `_send_command`: after the length
byte is prepended, `bytes(command)` materialises the frame and raises
`ValueError` (here: `none`) unless every element fits in one byte.
-/
def send_command_bytes (command : List Nat) : Option (List Nat) :=
  let frame := send_command_frame command
  if ∀ b ∈ frame, b ≤ 255 then some frame else none

/--
Embedding of the frame reader of `_arduino_report_dispatcher`
(telemetrix_aio.py, lines 914-937): read one length byte `l`, read
exactly `l` further bytes as the packet, take `packet[0]` as the report
type and `packet[1:]` as the payload.  Returns the report type, the
payload, and the unconsumed remainder of the stream; `none` when the
stream is empty, when fewer than `l` bytes follow (the read would keep
waiting), or when `l = 0` (then `packet[0]` raises `IndexError`).
-/
def decode_frame (stream : List Nat) : Option (Nat × List Nat × List Nat) :=
  match stream with
  | [] => none
  | l :: rest =>
    if l = 0 then none
    else if rest.length < l then none
    else some (rest.headD 0, (rest.take l).tail, rest.drop l)

/--
Embedding of `await self._send_command(command)` as a state transformer:
the frame `len(command) :: command` is materialised with `bytes(...)`
(`ValueError` on an out-of-range element) and written to the transport
selected by `self.ip_address`.  Modelled from the spec: the transport
modules are not in the sources; per the Transport contract, a write on a
closed serial channel fails (`SerialException`), and writing through a
missing transport object fails like a Python attribute access on `None`.
-/
def send_command (st : TState) (command : List Nat) : TState × Option PyExc :=
  let frame := send_command_frame command
  if ∀ b ∈ frame, b ≤ 255 then
    if !st.ip_address then
      if !st.serial_port then (st, some PyExc.attributeError)
      else if st.serial_closed then (st, some PyExc.serialException)
      else ({ st with sent := st.sent ++ [frame] }, none)
    else
      if !st.sock then (st, some PyExc.attributeError)
      else ({ st with sent := st.sent ++ [frame] }, none)
  else (st, some PyExc.valueError)

/-- The `except (RuntimeError, SerialException): pass` clause of `shutdown`:
those two exception classes are swallowed, every other one propagates. -/
def catchRS : Option PyExc → Option PyExc
  | some PyExc.serialException => none
  | some (PyExc.runtimeError _) => none
  | e => e

/--
Embedding of `shutdown` (telemetrix_aio.py, lines 823-850): set the
shutdown flag, then, under a `try` that swallows only `RuntimeError` and
`SerialException`: if a serial transport object exists, send
`STOP_ALL_REPORTS`, reset the input buffer, close the port and
optionally stop the loop; otherwise, if a socket exists, send
`STOP_ALL_REPORTS`, cancel the dispatch task (`self.the_task.cancel()`
raises `AttributeError` when no task was ever created) and optionally
stop the loop.  There is no check of an already-set shutdown flag.
-/
def shutdown (st : TState) : TState × Option PyExc :=
  let st1 : TState := { st with shutdown_flag := true }
  if st1.serial_port then
    let r := send_command st1 [PrivateConstants.STOP_ALL_REPORTS]
    match r.2 with
    | some e => (r.1, catchRS (some e))
    | none =>
      let s2 : TState := { r.1 with serial_closed := true }
      if s2.close_loop_on_shutdown then ({ s2 with loop_stopped := true }, none)
      else (s2, none)
  else if st1.sock then
    let r := send_command st1 [PrivateConstants.STOP_ALL_REPORTS]
    match r.2 with
    | some e => (r.1, catchRS (some e))
    | none =>
      if r.1.the_task then
        if r.1.close_loop_on_shutdown then ({ r.1 with loop_stopped := true }, none)
        else (r.1, none)
      else (r.1, catchRS (some PyExc.attributeError))
  else (st1, none)

/-- The recurring `if self.shutdown_on_exception: await self.shutdown()`
followed by `raise RuntimeError(msg)` pattern: when shutdown itself raises,
that exception propagates instead of the `RuntimeError`. -/
def raiseAfterShutdown (st : TState) (msg : String) : TState × Option PyExc :=
  if st.shutdown_on_exception then
    let r := shutdown st
    match r.2 with
    | some e => (r.1, some e)
    | none => (r.1, some (PyExc.runtimeError msg))
  else (st, some (PyExc.runtimeError msg))

/--
Embedding of `_i2c_read_request` (telemetrix_aio.py, lines 435-489):
check the activation flag of the addressed port, then the callback,
store the callback in the port's slot, and send the `I2C_READ` command
(`stop_transmission` is sent as a byte, `True` being 1).
-/
def i2c_read_request (st : TState) (address register number_of_bytes : Nat)
    (stop_transmission : Bool) (callback : Option Cb) (i2c_port : Nat) :
    TState × Option PyExc :=
  if i2c_port = 0 ∧ st.i2c_1_active = false then
    raiseAfterShutdown st "I2C Read: set_pin_mode i2c never called for i2c port 1."
  else if i2c_port ≠ 0 ∧ st.i2c_2_active = false then
    raiseAfterShutdown st "I2C Read: set_pin_mode i2c never called for i2c port 2."
  else
    match callback with
    | none => raiseAfterShutdown st "I2C Read: A callback function must be specified."
    | some cb =>
      let st := if i2c_port = 0 then { st with i2c_callback := some cb }
                else { st with i2c_callback2 := some cb }
      send_command st [PrivateConstants.I2C_READ, address, register, number_of_bytes,
                       if stop_transmission then 1 else 0, i2c_port]

/-- Embedding of `i2c_read` (telemetrix_aio.py, lines 370-399): reject a
missing callback, then delegate to `_i2c_read_request`. -/
def i2c_read (st : TState) (address register number_of_bytes : Nat)
    (callback : Option Cb) (i2c_port : Nat) : TState × Option PyExc :=
  match callback with
  | none => raiseAfterShutdown st "i2c_read: A Callback must be specified"
  | some cb => i2c_read_request st address register number_of_bytes true (some cb) i2c_port

/-- Embedding of `i2c_write` (telemetrix_aio.py, lines 491-520): check the
activation flag of the addressed port, then send
`[I2C_WRITE, len(args), address, i2c_port] ++ args`. -/
def i2c_write (st : TState) (address : Nat) (args : List Nat) (i2c_port : Nat) :
    TState × Option PyExc :=
  if i2c_port = 0 ∧ st.i2c_1_active = false then
    raiseAfterShutdown st "I2C Write: set_pin_mode i2c never called for i2c port 1."
  else if i2c_port ≠ 0 ∧ st.i2c_2_active = false then
    raiseAfterShutdown st "I2C Write: set_pin_mode i2c never called for i2c port 2."
  else
    send_command st ([PrivateConstants.I2C_WRITE, args.length, address, i2c_port] ++ args)

/-- Embedding of `set_pin_mode_i2c` (telemetrix_aio.py, lines 644-673):
a one-way activation per port; a second activation returns silently
without re-sending `I2C_BEGIN`. -/
def set_pin_mode_i2c (st : TState) (i2c_port : Nat) : TState × Option PyExc :=
  if i2c_port ≠ 0 then
    if st.i2c_2_active = false then
      send_command { st with i2c_2_active := true } [PrivateConstants.I2C_BEGIN, i2c_port]
    else (st, none)
  else
    if st.i2c_1_active = false then
      send_command { st with i2c_1_active := true } [PrivateConstants.I2C_BEGIN, i2c_port]
    else (st, none)

/-- Embedding of `set_pin_mode_dht` (telemetrix_aio.py, lines 675-698):
reject a missing callback; register and send `DHT_NEW` only while
`dht_count < MAX_DHTS - 1`, otherwise raise the device-limit error. -/
def set_pin_mode_dht (st : TState) (pin : Nat) (callback : Option Cb) :
    TState × Option PyExc :=
  match callback with
  | none => raiseAfterShutdown st "set_pin_mode_dht: A Callback must be specified"
  | some cb =>
    if st.dht_count < PrivateConstants.MAX_DHTS - 1 then
      send_command
        { st with dht_callbacks := alPut st.dht_callbacks pin cb,
                  dht_count := st.dht_count + 1 }
        [PrivateConstants.DHT_NEW, pin]
    else
      raiseAfterShutdown st "Maximum Number Of DHTs Exceeded - set_pin_mode_dht fails"

/-- Embedding of `set_pin_mode_sonar` (telemetrix_aio.py, lines 719-745):
reject a missing callback; register and send `SONAR_NEW` only while
`sonar_count < MAX_SONARS - 1`, otherwise raise the device-limit error. -/
def set_pin_mode_sonar (st : TState) (trigger_pin echo_pin : Nat)
    (callback : Option Cb) : TState × Option PyExc :=
  match callback with
  | none => raiseAfterShutdown st "set_pin_mode_sonar: A Callback must be specified"
  | some cb =>
    if st.sonar_count < PrivateConstants.MAX_SONARS - 1 then
      send_command
        { st with sonar_callbacks := alPut st.sonar_callbacks trigger_pin cb,
                  sonar_count := st.sonar_count + 1 }
        [PrivateConstants.SONAR_NEW, trigger_pin, echo_pin]
    else
      raiseAfterShutdown st "Maximum Number Of Sonars Exceeded - set_pin_mode_sonar fails"

/-- Embedding of `_set_pin_mode` (telemetrix_aio.py, lines 747-800):
reject a missing callback unless the mode is output; register the
callback in the dictionary selected by the mode; build and send the
`SET_PIN_MODE` command (unknown modes raise instead). -/
def set_pin_mode (st : TState) (pin_number pin_state differential : Nat)
    (callback : Option Cb) : TState × Option PyExc :=
  if callback = none ∧ pin_state ≠ PrivateConstants.AT_OUTPUT then
    raiseAfterShutdown st "A Callback must be specified"
  else
    let st :=
      match callback with
      | some cb =>
        if pin_state = PrivateConstants.AT_INPUT ∨
            pin_state = PrivateConstants.AT_INPUT_PULLUP then
          { st with digital_callbacks := alPut st.digital_callbacks pin_number cb }
        else if pin_state = PrivateConstants.AT_ANALOG then
          { st with analog_callbacks := alPut st.analog_callbacks pin_number cb }
        else st
      | none => st
    if pin_state = PrivateConstants.AT_INPUT then
      send_command st [PrivateConstants.SET_PIN_MODE, pin_number, PrivateConstants.AT_INPUT, 1]
    else if pin_state = PrivateConstants.AT_INPUT_PULLUP then
      send_command st [PrivateConstants.SET_PIN_MODE, pin_number,
                       PrivateConstants.AT_INPUT_PULLUP, 1]
    else if pin_state = PrivateConstants.AT_OUTPUT then
      send_command st [PrivateConstants.SET_PIN_MODE, pin_number, PrivateConstants.AT_OUTPUT]
    else if pin_state = PrivateConstants.AT_ANALOG then
      send_command st [PrivateConstants.SET_PIN_MODE, pin_number, PrivateConstants.AT_ANALOG,
                       differential / 256, differential % 256, 1]
    else
      raiseAfterShutdown st "Unknown pin state"

/-- Embedding of `set_pin_mode_analog_input` (telemetrix_aio.py, lines
557-582): reject a missing callback, then delegate to `_set_pin_mode`
with the analog mode. -/
def set_pin_mode_analog_input (st : TState) (pin_number differential : Nat)
    (callback : Option Cb) : TState × Option PyExc :=
  match callback with
  | none =>
    raiseAfterShutdown st "set_pin_mode_analog_input: A callback function must be specified."
  | some cb => set_pin_mode st pin_number PrivateConstants.AT_ANALOG differential (some cb)

/-- Embedding of `set_analog_scan_interval` (telemetrix_aio.py, lines
542-555): an interval in `0..255` is sent as a two-byte command,
anything else raises `RuntimeError`. -/
def set_analog_scan_interval (st : TState) (interval : Int) : TState × Option PyExc :=
  if 0 ≤ interval ∧ interval ≤ 255 then
    send_command st [PrivateConstants.SET_ANALOG_SCANNING_INTERVAL, interval.toNat]
  else
    raiseAfterShutdown st "Analog interval must be between 0 and 255"

/-- A value inside a callback message: an integer byte/word, an exactly
decoded 32-bit float, a non-finite float (infinity or NaN, kept as raw
bits), or the `time.time()` timestamp taken at dispatch. -/
inductive RVal where
  | i (v : Nat)
  | q (v : ℚ)
  | nf (bits : Nat)
  | t
deriving DecidableEq, Repr

/-- A recorded callback invocation: the opaque handler reference and the
message list it receives. -/
abbrev CbCall := Cb × List RVal

/-- The exact value of the IEEE-754 binary32 number with the given 32-bit
pattern: sign, 8 exponent bits, 23 fraction bits; exponent 255 encodes an
infinity or NaN (`RVal.nf`), exponent 0 a subnormal. -/
def f32_of_word (w : Nat) : RVal :=
  let s : Nat := w / 2 ^ 31
  let e : Nat := w / 2 ^ 23 % 256
  let m : Nat := w % 2 ^ 23
  if e = 255 then RVal.nf w
  else
    let mag : ℚ :=
      if e = 0 then (m : ℚ) / 2 ^ 149
      else if 150 ≤ e then ((2 ^ 23 + m : Nat) : ℚ) * 2 ^ (e - 150)
      else ((2 ^ 23 + m : Nat) : ℚ) / 2 ^ (150 - e)
    RVal.q (if s = 1 then -mag else mag)

/-- Embedding of `struct.unpack` with format `<f`: exactly four bytes,
assembled least-significant byte first, then read as a binary32 value;
any other byte count raises `struct.error` (here: `none`). -/
def unpack_f32_le (bs : List Nat) : Option RVal :=
  match bs with
  | [b0, b1, b2, b3] =>
    some (f32_of_word (b0 + 256 * b1 + 65536 * b2 + 16777216 * b3))
  | _ => none

/-- Embedding of `_report_loop_data` (telemetrix_aio.py, lines 944-951):
forward the raw payload to the loop-back callback when one is registered,
otherwise do nothing. -/
def report_loop_data (st : TState) (data : List Nat) :
    TState × List CbCall × Option PyExc :=
  match st.loop_back_callback with
  | some cb => (st, [(cb, data.map RVal.i)], none)
  | none => (st, [], none)

/-- Embedding of `_report_debug_data` (telemetrix_aio.py, lines 953-961):
reassemble the 16-bit value and print it; no callback is invoked. -/
def report_debug_data (st : TState) (data : List Nat) :
    TState × List CbCall × Option PyExc :=
  match data with
  | _ :: _ :: _ :: _ => (st, [], none)
  | _ => (st, [], some PyExc.indexError)

/-- Embedding of `_analog_message` (telemetrix_aio.py, lines 963-979):
reassemble the 16-bit value as `(data[1] << 8) + data[2]` and invoke the
analog callback registered for the pin (`KeyError` when none is). -/
def analog_message (st : TState) (data : List Nat) :
    TState × List CbCall × Option PyExc :=
  match data with
  | pin :: hi :: lo :: _ =>
    match alGet st.analog_callbacks pin with
    | some cb =>
      (st, [(cb, [RVal.i PrivateConstants.AT_ANALOG, RVal.i pin,
                  RVal.i ((hi <<< 8) + lo), RVal.t])], none)
    | none => (st, [], some PyExc.keyError)
  | _ => (st, [], some PyExc.indexError)

/-- Embedding of `_digital_message` (telemetrix_aio.py, lines 1023-1037):
invoke the digital callback registered for the pin (`KeyError` when none
is). -/
def digital_message (st : TState) (data : List Nat) :
    TState × List CbCall × Option PyExc :=
  match data with
  | pin :: value :: _ =>
    match alGet st.digital_callbacks pin with
    | some cb =>
      (st, [(cb, [RVal.i PrivateConstants.DIGITAL_REPORT, RVal.i pin,
                  RVal.i value, RVal.t])], none)
    | none => (st, [], some PyExc.keyError)
  | _ => (st, [], some PyExc.indexError)

/-- Embedding of `_dht_report` (telemetrix_aio.py, lines 981-1021): a
non-zero sub-type is an error report forwarded as
`[DHT_REPORT, sub, pin, error, time]`; a zero sub-type carries humidity in
`data[2:6]` and temperature in `data[6:]`, each reassembled as a
little-endian binary32 value, forwarded as
`[DHT_REPORT, 0, pin, humidity, temperature, time]` to the DHT callback
registered for the pin (`KeyError` when none is). -/
def dht_report (st : TState) (data : List Nat) :
    TState × List CbCall × Option PyExc :=
  match data with
  | [] => (st, [], some PyExc.indexError)
  | subtype :: rest =>
    if subtype ≠ 0 then
      match rest with
      | pin :: err :: _ =>
        match alGet st.dht_callbacks pin with
        | some cb =>
          (st, [(cb, [RVal.i PrivateConstants.DHT_REPORT, RVal.i subtype,
                      RVal.i pin, RVal.i err, RVal.t])], none)
        | none => (st, [], some PyExc.keyError)
      | _ => (st, [], some PyExc.indexError)
    else
      match rest with
      | [] => (st, [], some PyExc.indexError)
      | pin :: _ =>
        match unpack_f32_le ((data.drop 2).take 4) with
        | none => (st, [], some PyExc.structError)
        | some hum =>
          match unpack_f32_le (data.drop 6) with
          | none => (st, [], some PyExc.structError)
          | some temp =>
            match alGet st.dht_callbacks pin with
            | some cb =>
              (st, [(cb, [RVal.i PrivateConstants.DHT_REPORT, RVal.i 0,
                          RVal.i pin, hum, temp, RVal.t])], none)
            | none => (st, [], some PyExc.keyError)

/-- Embedding of `_servo_unavailable` (telemetrix_aio.py, lines
1039-1047): an optional shutdown followed by a `RuntimeError`. -/
def servo_unavailable (st : TState) (_data : List Nat) :
    TState × List CbCall × Option PyExc :=
  let r := raiseAfterShutdown st "Servo Attach Failed: No Available Servos"
  (r.1, [], r.2)

/-- Embedding of `_i2c_read_report` (telemetrix_aio.py, lines 1049-1072):
build `[I2C_READ_REPORT, data[0], data[1]] ++ data[2:] ++ [time]` and
invoke the secondary-port callback when `data[0]` is non-zero, the
primary-port callback otherwise (`TypeError` when that slot is `None`). -/
def i2c_read_report (st : TState) (data : List Nat) :
    TState × List CbCall × Option PyExc :=
  match data with
  | b0 :: b1 :: rest =>
    let cb_list : List RVal :=
      [RVal.i PrivateConstants.I2C_READ_REPORT, RVal.i b0, RVal.i b1] ++
        rest.map RVal.i ++ [RVal.t]
    if b0 ≠ 0 then
      match st.i2c_callback2 with
      | some cb => (st, [(cb, cb_list)], none)
      | none => (st, [], some PyExc.typeError)
    else
      match st.i2c_callback with
      | some cb => (st, [(cb, cb_list)], none)
      | none => (st, [], some PyExc.typeError)
  | _ => (st, [], some PyExc.indexError)

/-- Embedding of `_i2c_too_few` (telemetrix_aio.py, lines 1074-1082):
an optional shutdown followed by a `RuntimeError`. -/
def i2c_too_few (st : TState) (_data : List Nat) :
    TState × List CbCall × Option PyExc :=
  let r := raiseAfterShutdown st "i2c too few bytes received"
  (r.1, [], r.2)

/-- Embedding of `_i2c_too_many` (telemetrix_aio.py, lines 1084-1092):
an optional shutdown followed by a `RuntimeError`. -/
def i2c_too_many (st : TState) (_data : List Nat) :
    TState × List CbCall × Option PyExc :=
  let r := raiseAfterShutdown st "i2c too many bytes received"
  (r.1, [], r.2)

/-- Embedding of `_sonar_distance_report` (telemetrix_aio.py, lines
1094-1109): look up the callback keyed by the trigger pin (`KeyError`
when none is), then forward the reassembled 16-bit distance. -/
def sonar_distance_report (st : TState) (data : List Nat) :
    TState × List CbCall × Option PyExc :=
  match data with
  | [] => (st, [], some PyExc.indexError)
  | p0 :: rest =>
    match alGet st.sonar_callbacks p0 with
    | none => (st, [], some PyExc.keyError)
    | some cb =>
      match rest with
      | p1 :: p2 :: _ =>
        (st, [(cb, [RVal.i PrivateConstants.SONAR_DISTANCE, RVal.i p0,
                    RVal.i ((p1 <<< 8) + p2), RVal.t])], none)
      | _ => (st, [], some PyExc.indexError)

/-- Embedding of the `report_dispatch` table built in `__init__`
(telemetrix_aio.py, lines 142-154) and consulted by
`_arduino_report_dispatcher`: route the payload to the handler keyed by
the report type; an unknown report type raises `KeyError`. -/
def handle_report (st : TState) (report : Nat) (data : List Nat) :
    TState × List CbCall × Option PyExc :=
  if report = PrivateConstants.LOOP_COMMAND then report_loop_data st data
  else if report = PrivateConstants.DEBUG_PRINT then report_debug_data st data
  else if report = PrivateConstants.DIGITAL_REPORT then digital_message st data
  else if report = PrivateConstants.ANALOG_REPORT then analog_message st data
  else if report = PrivateConstants.SERVO_UNAVAILABLE then servo_unavailable st data
  else if report = PrivateConstants.I2C_READ_REPORT then i2c_read_report st data
  else if report = PrivateConstants.I2C_TOO_FEW_BYTES_RCVD then i2c_too_few st data
  else if report = PrivateConstants.I2C_TOO_MANY_BYTES_RCVD then i2c_too_many st data
  else if report = PrivateConstants.SONAR_DISTANCE then sonar_distance_report st data
  else if report = PrivateConstants.DHT_REPORT then dht_report st data
  else (st, [], some PyExc.keyError)

/-- One iteration of `_arduino_report_dispatcher` on an inbound byte
stream: split off one length-prefixed frame and route it. -/
def process_frame (st : TState) (stream : List Nat) :
    Option (TState × List CbCall × Option PyExc) :=
  match decode_frame stream with
  | some (report, payload, _) => some (handle_report st report payload)
  | none => none

/-- The `STOP_ALL_REPORTS` frame that `shutdown` writes. -/
def stop_frame : List Nat :=
  send_command_frame [PrivateConstants.STOP_ALL_REPORTS]

/-- Is this frame a scan-interval command frame (opcode
`SET_ANALOG_SCANNING_INTERVAL` after the length byte)? -/
def isScanFrame : List Nat → Bool
  | _ :: op :: _ => op == PrivateConstants.SET_ANALOG_SCANNING_INTERVAL
  | _ => false

/-- A freshly constructed client connected over an open serial transport,
with all other fields at their `__init__` defaults. -/
def freshSerial : TState := { serial_port := true }

/-- A freshly constructed client connected over TCP, with the report
dispatch task running. -/
def sockClient : TState := { ip_address := true, sock := true, the_task := true }

/-- A client connected over TCP before the dispatch task was created (for
example when the firmware-version handshake timed out). -/
def sockClientNoTask : TState := { ip_address := true, sock := true }

/-- The client state reached from `freshSerial` after `n` calls to
`set_pin_mode_dht` on pins `0, 1, ...` with a valid callback. -/
def dhtN : Nat → TState
  | 0 => freshSerial
  | n + 1 => (set_pin_mode_dht (dhtN n) n (some 1)).1

/-- What a rejected command invocation leaves behind: it raises, registers
no handler, changes no counter, and writes nothing except possibly the
single `STOP_ALL_REPORTS` frame that an implied `shutdown()` sends; with
`shutdown_on_exception` unset the call has no effect at all beyond the
`RuntimeError` carrying `msg`. -/
def silentNoCommand (st : TState) (msg : String) (r : TState × Option PyExc) : Prop :=
  r.2.isSome = true ∧
  r.1.analog_callbacks = st.analog_callbacks ∧
  r.1.digital_callbacks = st.digital_callbacks ∧
  r.1.dht_callbacks = st.dht_callbacks ∧
  r.1.sonar_callbacks = st.sonar_callbacks ∧
  r.1.i2c_callback = st.i2c_callback ∧
  r.1.i2c_callback2 = st.i2c_callback2 ∧
  r.1.dht_count = st.dht_count ∧
  r.1.sonar_count = st.sonar_count ∧
  (r.1.sent = st.sent ∨ r.1.sent = st.sent ++ [stop_frame]) ∧
  (st.shutdown_on_exception = false → r = (st, some (PyExc.runtimeError msg)))

/-- What a secondary-bus call rejected by the channel-activation guard
leaves behind: it raises, stores no callback, flips no activation flag,
and writes nothing except possibly the single `STOP_ALL_REPORTS` frame of
an implied `shutdown()`; with `shutdown_on_exception` unset it has no
effect at all beyond the `RuntimeError` carrying `msg`. -/
def channelGuardHolds (st : TState) (msg : String) (r : TState × Option PyExc) : Prop :=
  r.2.isSome = true ∧
  r.1.i2c_callback = st.i2c_callback ∧
  r.1.i2c_callback2 = st.i2c_callback2 ∧
  r.1.i2c_1_active = st.i2c_1_active ∧
  r.1.i2c_2_active = st.i2c_2_active ∧
  (r.1.sent = st.sent ∨ r.1.sent = st.sent ++ [stop_frame]) ∧
  (st.shutdown_on_exception = false → r = (st, some (PyExc.runtimeError msg)))

/-- The observable outcome of the explicit-port connection probe. -/
structure ProbeResult where
  sent : List (List Nat)
  errorPrinted : Bool
  raised : Option PyExc
deriving DecidableEq, Repr

/-- Embedding of `_manual_open` (telemetrix_aio.py, lines 301-326) for an
explicit com port whose serial device opens successfully.  Modelled from
the spec: the transport `read(3)` is represented by the `reply` argument,
empty when no identity reply arrived within the timeout.  The method
sends `ARE_U_THERE`, prints an error line when the reply is empty, then
unconditionally prints the success line and returns: it raises nothing
and never compares `i_am_here[2]` against `arduino_instance_id` (the
identifier argument is unused, exactly as in the source). -/
def manual_open (_arduino_instance_id : Nat) (reply : List Nat) : ProbeResult :=
  { sent := [send_command_frame [PrivateConstants.ARE_U_THERE]],
    errorPrinted := reply.isEmpty,
    raised := none }


/-- Claim C1: for an opcode byte followed by `n` argument bytes (each at most
255, `n ≤ 254`), the encoder of `_send_command` emits exactly
`[n+1][opcode][arg0]...[arg(n-1)]`, so the first emitted byte is the count of
all bytes that follow it. -/
theorem encode_emits_length_prefixed_frame
    (opcode : Nat) (args : List Nat)
    (hop : opcode ≤ 255) (hargs : ∀ b ∈ args, b ≤ 255)
    (hlen : args.length ≤ 254) :
    send_command_bytes (opcode :: args) =
      some ((args.length + 1) :: opcode :: args) := by
  have hall : ∀ b ∈ send_command_frame (opcode :: args), b ≤ 255 := by
    intro b hb
    simp only [send_command_frame, List.length_cons, List.mem_cons] at hb
    rcases hb with rfl | rfl | h
    · omega
    · exact hop
    · exact hargs b h
  have h1 : send_command_bytes (opcode :: args) =
      some (send_command_frame (opcode :: args)) := by
    simp only [send_command_bytes]
    exact if_pos hall
  rw [h1]
  simp [send_command_frame]

/-- Witness for C1 at a concrete command. -/
theorem encode_emits_length_prefixed_frame_witness :
    send_command_bytes (7 :: [20, 30]) = some ([2 + 1] ++ 7 :: [20, 30]) :=
  encode_emits_length_prefixed_frame 7 [20, 30] (by decide) (by decide) (by decide)

/-- Claim C2: encoding a command with `_send_command` and decoding the
resulting byte stream with the dispatcher-side frame reader yields back
exactly the original opcode and argument bytes (and consumes the whole
stream), for any argument sequence the encoder accepts. -/
theorem encode_decode_round_trip
    (opcode : Nat) (args : List Nat) (stream : List Nat)
    (h : send_command_bytes (opcode :: args) = some stream) :
    decode_frame stream = some (opcode, args, []) := by
  by_cases hall : ∀ b ∈ send_command_frame (opcode :: args), b ≤ 255
  · simp only [send_command_bytes] at h
    rw [if_pos hall] at h
    obtain rfl := Option.some.inj h
    simp [send_command_frame, decode_frame]
  · simp only [send_command_bytes] at h
    rw [if_neg hall] at h
    exact absurd h (by simp)

/-- Witness for C2 at a concrete command. -/
theorem encode_decode_round_trip_witness :
    decode_frame [3, 1, 2, 3] = some (1, [2, 3], []) :=
  encode_decode_round_trip 1 [2, 3] [3, 1, 2, 3] (by decide)

/-- A frame produced by prefixing a payload with its own length decodes to
exactly that report type and payload, consuming the whole stream. -/
theorem decode_frame_length_prefixed (r : Nat) (payload : List Nat) :
    decode_frame ((payload.length + 1) :: r :: payload) = some (r, payload, []) := by
  simp [decode_frame]

/-- The little-endian binary32 bytes of 55.5 decode to exactly 111/2. -/
theorem unpack_f32_le_55_5 : unpack_f32_le [0, 0, 94, 66] = some (RVal.q (111 / 2)) := by
  norm_num [unpack_f32_le, f32_of_word]

/-- The little-endian binary32 bytes of 21.0 decode to exactly 21. -/
theorem unpack_f32_le_21 : unpack_f32_le [0, 0, 168, 65] = some (RVal.q 21) := by
  norm_num [unpack_f32_le, f32_of_word]

/-- Claim C3: for a pin registered for analog input with handler `h`, the
inbound frame `[4][ANALOG_REPORT][pin][hi][lo]` dispatches exactly one
callback invocation, namely of `h`, with the analog pin type, the pin, the
value `(hi << 8) + lo` and a timestamp; no other handler is invoked and no
exception is raised. -/
theorem analog_frame_dispatches_registered_handler
    (st : TState) (pin hi lo : Nat) (h : Cb)
    (hreg : alGet st.analog_callbacks pin = some h) :
    process_frame st [4, PrivateConstants.ANALOG_REPORT, pin, hi, lo] =
      some (st, [(h, [RVal.i PrivateConstants.AT_ANALOG, RVal.i pin,
                      RVal.i ((hi <<< 8) + lo), RVal.t])], none) := by
  unfold process_frame
  rw [show decode_frame [4, PrivateConstants.ANALOG_REPORT, pin, hi, lo] =
        some (PrivateConstants.ANALOG_REPORT, [pin, hi, lo], []) from
      decode_frame_length_prefixed PrivateConstants.ANALOG_REPORT [pin, hi, lo]]
  simp [handle_report, analog_message, hreg,
        PrivateConstants.ANALOG_REPORT, PrivateConstants.LOOP_COMMAND,
        PrivateConstants.DEBUG_PRINT, PrivateConstants.DIGITAL_REPORT]

/-- Witness for C3: a concrete state with handler 77 registered for analog
pin 5 receives the value 300 reassembled from the frame bytes. -/
theorem analog_frame_dispatches_registered_handler_witness :
    process_frame { analog_callbacks := [(5, 77)] }
        [4, PrivateConstants.ANALOG_REPORT, 5, 1, 44] =
      some ({ analog_callbacks := [(5, 77)] },
        [(77, [RVal.i PrivateConstants.AT_ANALOG, RVal.i 5,
               RVal.i ((1 <<< 8) + 44), RVal.t])], none) :=
  analog_frame_dispatches_registered_handler { analog_callbacks := [(5, 77)] } 5 1 44 77
    (by decide)

/-- Claim C9: a DHT report frame whose payload is the data sub-type (0), the
pin, the little-endian binary32 bytes of 55.5 and then those of 21.0,
invokes the DHT handler registered for that pin with humidity exactly 55.5
and temperature exactly 21.0. -/
theorem dht_float_decode_dispatch
    (st : TState) (pin : Nat) (h : Cb)
    (hreg : alGet st.dht_callbacks pin = some h) :
    process_frame st [11, PrivateConstants.DHT_REPORT, 0, pin, 0, 0, 94, 66, 0, 0, 168, 65] =
      some (st, [(h, [RVal.i PrivateConstants.DHT_REPORT, RVal.i 0, RVal.i pin,
                      RVal.q (111 / 2), RVal.q 21, RVal.t])], none) := by
  unfold process_frame
  rw [show decode_frame
        [11, PrivateConstants.DHT_REPORT, 0, pin, 0, 0, 94, 66, 0, 0, 168, 65] =
        some (PrivateConstants.DHT_REPORT, [0, pin, 0, 0, 94, 66, 0, 0, 168, 65], []) from
      decode_frame_length_prefixed PrivateConstants.DHT_REPORT
        [0, pin, 0, 0, 94, 66, 0, 0, 168, 65]]
  have hh : ((([0, pin, 0, 0, 94, 66, 0, 0, 168, 65] : List Nat).drop 2).take 4) =
      [0, 0, 94, 66] := rfl
  have ht : (([0, pin, 0, 0, 94, 66, 0, 0, 168, 65] : List Nat).drop 6) =
      [0, 0, 168, 65] := rfl
  simp [handle_report, dht_report, hreg, hh, ht, unpack_f32_le_55_5, unpack_f32_le_21,
        PrivateConstants.DHT_REPORT, PrivateConstants.LOOP_COMMAND,
        PrivateConstants.DEBUG_PRINT, PrivateConstants.DIGITAL_REPORT,
        PrivateConstants.ANALOG_REPORT, PrivateConstants.SERVO_UNAVAILABLE,
        PrivateConstants.I2C_READ_REPORT, PrivateConstants.I2C_TOO_FEW_BYTES_RCVD,
        PrivateConstants.I2C_TOO_MANY_BYTES_RCVD, PrivateConstants.SONAR_DISTANCE]

/-- Witness for C9: a concrete state with handler 9 registered for DHT
pin 4 receives humidity 55.5 and temperature 21.0. -/
theorem dht_float_decode_dispatch_witness :
    process_frame { dht_callbacks := [(4, 9)] }
        [11, PrivateConstants.DHT_REPORT, 0, 4, 0, 0, 94, 66, 0, 0, 168, 65] =
      some ({ dht_callbacks := [(4, 9)] },
        [(9, [RVal.i PrivateConstants.DHT_REPORT, RVal.i 0, RVal.i 4,
              RVal.q (111 / 2), RVal.q 21, RVal.t])], none) :=
  dht_float_decode_dispatch { dht_callbacks := [(4, 9)] } 4 9 (by decide)

/-- What the `shutdown`-then-`raise` pattern does to the client state: an
exception is always raised, every callback registry, activation flag and
device counter is untouched, at most one `STOP_ALL_REPORTS` frame is
written, and with `shutdown_on_exception` unset nothing happens at all
beyond the `RuntimeError`. -/
theorem raiseAfterShutdown_spec (st : TState) (msg : String) :
    (raiseAfterShutdown st msg).2.isSome = true ∧
    (raiseAfterShutdown st msg).1.analog_callbacks = st.analog_callbacks ∧
    (raiseAfterShutdown st msg).1.digital_callbacks = st.digital_callbacks ∧
    (raiseAfterShutdown st msg).1.dht_callbacks = st.dht_callbacks ∧
    (raiseAfterShutdown st msg).1.sonar_callbacks = st.sonar_callbacks ∧
    (raiseAfterShutdown st msg).1.i2c_callback = st.i2c_callback ∧
    (raiseAfterShutdown st msg).1.i2c_callback2 = st.i2c_callback2 ∧
    (raiseAfterShutdown st msg).1.i2c_1_active = st.i2c_1_active ∧
    (raiseAfterShutdown st msg).1.i2c_2_active = st.i2c_2_active ∧
    (raiseAfterShutdown st msg).1.dht_count = st.dht_count ∧
    (raiseAfterShutdown st msg).1.sonar_count = st.sonar_count ∧
    ((raiseAfterShutdown st msg).1.sent = st.sent ∨
      (raiseAfterShutdown st msg).1.sent = st.sent ++ [stop_frame]) ∧
    (st.shutdown_on_exception = false →
      raiseAfterShutdown st msg = (st, some (PyExc.runtimeError msg))) := by
  have hstop : (∀ b ∈ send_command_frame [PrivateConstants.STOP_ALL_REPORTS], b ≤ 255) =
      True :=
    eq_true (by decide)
  obtain ⟨ac, dc, dhc, sc, ic1, ic2, a1, a2, lb, scnt, dcnt, sf, soe, cl, ip, sp,
    sclosed, sk, task, ls, snt⟩ := st
  cases soe <;> cases sp <;> cases ip <;> cases sclosed <;> cases sk <;> cases task <;>
    cases cl <;>
    simp [raiseAfterShutdown, shutdown, send_command, catchRS, stop_frame, hstop]

/-- Projection of `raiseAfterShutdown_spec` onto the fields named by
`silentNoCommand`. -/
theorem raiseAfterShutdown_silent (st : TState) (msg : String) :
    silentNoCommand st msg (raiseAfterShutdown st msg) := by
  obtain ⟨a, b, c, d, e, f, g, i1, i2, dc, sc, sd, im⟩ := raiseAfterShutdown_spec st msg
  exact ⟨a, b, c, d, e, f, g, dc, sc, sd, im⟩

/-- Projection of `raiseAfterShutdown_spec` onto the fields named by
`channelGuardHolds`. -/
theorem raiseAfterShutdown_channel (st : TState) (msg : String) :
    channelGuardHolds st msg (raiseAfterShutdown st msg) := by
  obtain ⟨a, b, c, d, e, f, g, i1, i2, dc, sc, sd, im⟩ := raiseAfterShutdown_spec st msg
  exact ⟨a, f, g, i1, i2, sd, im⟩

/-- Claim C4 (code evaluation): from a fresh serially connected client,
the first five `set_pin_mode_dht` registrations succeed, but the sixth —
the `MAX_DHTS`-th, which the claim says must succeed — raises the
device-limit error because the guard compares against `MAX_DHTS - 1`;
likewise `set_pin_mode_sonar` rejects the `MAX_SONARS`-th registration. -/
theorem dht_limit_off_by_one_eval :
    (set_pin_mode_dht (dhtN 4) 4 (some 1)).2 = none ∧
    (dhtN 5).dht_count = 5 ∧
    PrivateConstants.MAX_DHTS = 6 ∧
    (set_pin_mode_dht (dhtN 5) 5 (some 1)).2 =
      some (PyExc.runtimeError "Maximum Number Of DHTs Exceeded - set_pin_mode_dht fails") ∧
    (set_pin_mode_dht (dhtN 5) 5 (some 1)).1.dht_count = 5 ∧
    (set_pin_mode_sonar { freshSerial with sonar_count := 5 } 5 6 (some 1)).2 =
      some (PyExc.runtimeError
        "Maximum Number Of Sonars Exceeded - set_pin_mode_sonar fails") := by
  decide

/-- Claim C5 counterexample: on a TCP connection a second `shutdown()`
performs the stop-all-reports sequence again (two frames written in
total), and `shutdown()` on a TCP client with no dispatch task raises
`AttributeError` to its caller. -/
theorem shutdown_counterexample :
    (shutdown (shutdown sockClient).1).1.sent = [stop_frame, stop_frame] ∧
    (shutdown sockClientNoTask).2 = some PyExc.attributeError := by
  decide

/-- Claim C5 amended: `shutdown()` always sets the shutdown flag but never
checks it, so it is not idempotent: on a serial connection the second call
re-attempts the sequence and only the closed port (whose write failure is
swallowed) keeps the stop frame from being written twice, while on a TCP
connection each call writes the stop frame again; only `RuntimeError` and
`SerialException` are suppressed — cancelling a never-created dispatch
task on a TCP connection raises `AttributeError` to the caller. -/
theorem shutdown_amended (st : TState) :
    ((shutdown st).1.shutdown_flag = true) ∧
    (st.serial_port = true → st.ip_address = false → st.serial_closed = false →
      (shutdown st).2 = none ∧
      (shutdown (shutdown st).1).2 = none ∧
      (shutdown (shutdown st).1).1.sent = st.sent ++ [stop_frame]) ∧
    (st.serial_port = false → st.sock = true → st.ip_address = true →
      st.the_task = true →
      (shutdown (shutdown st).1).1.sent = st.sent ++ [stop_frame, stop_frame]) ∧
    (st.serial_port = false → st.sock = true → st.ip_address = true →
      st.the_task = false →
      (shutdown st).2 = some PyExc.attributeError) := by
  have hstop : (∀ b ∈ send_command_frame [PrivateConstants.STOP_ALL_REPORTS], b ≤ 255) =
      True :=
    eq_true (by decide)
  obtain ⟨ac, dc, dhc, sc, ic1, ic2, a1, a2, lb, scnt, dcnt, sf, soe, cl, ip, sp,
    sclosed, sk, task, ls, snt⟩ := st
  refine ⟨?_, ?_, ?_, ?_⟩
  · cases sp <;> cases ip <;> cases sclosed <;> cases sk <;> cases task <;> cases cl <;>
      simp [shutdown, send_command, catchRS, hstop]
  · rintro rfl rfl rfl
    cases cl <;> simp [shutdown, send_command, catchRS, hstop, stop_frame]
  · rintro rfl rfl rfl rfl
    cases cl <;> simp [shutdown, send_command, catchRS, hstop, stop_frame]
  · rintro rfl rfl rfl rfl
    simp [shutdown, send_command, catchRS, hstop]

/-- Witness for the amended C5 on concrete states: one stop frame in total
after a double shutdown over serial, two over TCP, and the raised
`AttributeError` on the task-less TCP client. -/
theorem shutdown_amended_witness :
    (shutdown (shutdown freshSerial).1).1.sent = freshSerial.sent ++ [stop_frame] ∧
    (shutdown (shutdown sockClient).1).1.sent =
      sockClient.sent ++ [stop_frame, stop_frame] ∧
    (shutdown sockClientNoTask).2 = some PyExc.attributeError :=
  ⟨((shutdown_amended freshSerial).2.1 rfl rfl rfl).2.2,
   (shutdown_amended sockClient).2.2.1 rfl rfl rfl rfl,
   (shutdown_amended sockClientNoTask).2.2.2 rfl rfl rfl rfl⟩

/-- Claim C6 counterexample: with the default `shutdown_on_exception`,
calling `i2c_read` without a callback on a connected client does have side
effects before the error reaches the caller: the shutdown flag flips and a
`STOP_ALL_REPORTS` frame is written to the transport. -/
theorem callback_required_counterexample :
    (i2c_read freshSerial 0 0 1 none 0).1.shutdown_flag = true ∧
    (i2c_read freshSerial 0 0 1 none 0).1.sent = [stop_frame] ∧
    (i2c_read freshSerial 0 0 1 none 0).2 =
      some (PyExc.runtimeError "i2c_read: A Callback must be specified") := by
  decide

/-- Claim C6 amended: invoking a command that requires a reporting callback
without one raises synchronously; no handler is registered, no counter
changed, and the command itself is never sent — but when
`shutdown_on_exception` is set the call first runs `shutdown()`, which
sets the shutdown flag and may write the stop-all-reports frame; only with
`shutdown_on_exception` unset is the call entirely side-effect free. -/
theorem callback_required_amended (st : TState)
    (address register number_of_bytes i2c_port pin differential : Nat) :
    silentNoCommand st "i2c_read: A Callback must be specified"
      (i2c_read st address register number_of_bytes none i2c_port) ∧
    silentNoCommand st "set_pin_mode_dht: A Callback must be specified"
      (set_pin_mode_dht st pin none) ∧
    silentNoCommand st "set_pin_mode_analog_input: A callback function must be specified."
      (set_pin_mode_analog_input st pin differential none) :=
  ⟨raiseAfterShutdown_silent st _, raiseAfterShutdown_silent st _,
   raiseAfterShutdown_silent st _⟩

/-- Witness for the amended C6 on a concrete client with
`shutdown_on_exception` unset: the call returns the unchanged state and
only the `RuntimeError`. -/
theorem callback_required_amended_witness :
    i2c_read { shutdown_on_exception := false } 0 0 1 none 0 =
      ({ shutdown_on_exception := false },
        some (PyExc.runtimeError "i2c_read: A Callback must be specified")) :=
  (callback_required_amended { shutdown_on_exception := false } 0 0 1 0 0 0).1.2.2.2.2.2.2.2.2.2.2
    rfl

/-- Claim C7 counterexample: with the default `shutdown_on_exception`, an
`i2c_write` on the never-activated channel 0 does write bytes to the
transport before the error reaches the caller — the `STOP_ALL_REPORTS`
frame of the implied `shutdown()`. -/
theorem channel_not_active_counterexample :
    (i2c_write freshSerial 13 [7] 0).1.sent = [stop_frame] ∧
    (i2c_write freshSerial 13 [7] 0).2 =
      some (PyExc.runtimeError
        "I2C Write: set_pin_mode i2c never called for i2c port 1.") := by
  decide

/-- Claim C7 amended: a secondary-bus read or write on a channel not yet
activated by `set_pin_mode_i2c` fails with the channel-not-active error
and never sends the read/write command, stores no callback and flips no
activation flag — but when `shutdown_on_exception` is set the failing
call first runs `shutdown()`, which may write the stop-all-reports frame;
only with `shutdown_on_exception` unset does the failing call write
nothing at all. -/
theorem channel_not_active_amended (st : TState)
    (address register number_of_bytes cb : Nat) (args : List Nat) :
    (st.i2c_1_active = false →
      channelGuardHolds st "I2C Read: set_pin_mode i2c never called for i2c port 1."
        (i2c_read st address register number_of_bytes (some cb) 0) ∧
      channelGuardHolds st "I2C Write: set_pin_mode i2c never called for i2c port 1."
        (i2c_write st address args 0)) ∧
    (st.i2c_2_active = false →
      channelGuardHolds st "I2C Read: set_pin_mode i2c never called for i2c port 2."
        (i2c_read st address register number_of_bytes (some cb) 1) ∧
      channelGuardHolds st "I2C Write: set_pin_mode i2c never called for i2c port 2."
        (i2c_write st address args 1)) := by
  constructor
  · intro h
    constructor
    · rw [show i2c_read st address register number_of_bytes (some cb) 0 =
          raiseAfterShutdown st
            "I2C Read: set_pin_mode i2c never called for i2c port 1." by
        simp [i2c_read, i2c_read_request, h]]
      exact raiseAfterShutdown_channel st _
    · rw [show i2c_write st address args 0 =
          raiseAfterShutdown st
            "I2C Write: set_pin_mode i2c never called for i2c port 1." by
        simp [i2c_write, h]]
      exact raiseAfterShutdown_channel st _
  · intro h
    constructor
    · rw [show i2c_read st address register number_of_bytes (some cb) 1 =
          raiseAfterShutdown st
            "I2C Read: set_pin_mode i2c never called for i2c port 2." by
        simp [i2c_read, i2c_read_request, h]]
      exact raiseAfterShutdown_channel st _
    · rw [show i2c_write st address args 1 =
          raiseAfterShutdown st
            "I2C Write: set_pin_mode i2c never called for i2c port 2." by
        simp [i2c_write, h]]
      exact raiseAfterShutdown_channel st _

/-- Witness for the amended C7 on a concrete client with
`shutdown_on_exception` unset: the failing write returns the unchanged
state and only the `RuntimeError`. -/
theorem channel_not_active_amended_witness :
    i2c_write { shutdown_on_exception := false } 13 [7] 0 =
      ({ shutdown_on_exception := false },
        some (PyExc.runtimeError
          "I2C Write: set_pin_mode i2c never called for i2c port 1.")) :=
  (((channel_not_active_amended { shutdown_on_exception := false } 13 0 1 5 [7]).1
      rfl).2.2.2.2.2.2.2) rfl

/-- Claim C8 (code evaluation): with an explicit com port, the probe sends
`ARE_U_THERE` but completes without raising both when the identity reply
carries a non-matching instance id (2 against configured 1) and when no
reply arrives at all (only an error line is printed); the connection then
proceeds to the firmware handshake instead of failing. -/
theorem manual_open_ignores_instance_id_eval :
    manual_open 1 [6, 6, 2] =
      { sent := [send_command_frame [PrivateConstants.ARE_U_THERE]],
        errorPrinted := false, raised := none } ∧
    (manual_open 1 []).raised = none ∧
    (manual_open 1 []).errorPrinted = true := by
  decide

/-- Claim C10: `set_analog_scan_interval` with an interval in `0..255`
sends exactly one scan-interval command (opcode plus one data byte); any
other interval raises `RuntimeError` and no scan-interval command is ever
written (the implied shutdown writes only a stop frame). -/
theorem analog_scan_interval_range (st : TState) (interval : Int)
    (h1 : st.ip_address = false) (h2 : st.serial_port = true)
    (h3 : st.serial_closed = false) :
    (0 ≤ interval ∧ interval ≤ 255 →
      set_analog_scan_interval st interval =
        ({ st with sent := st.sent ++
            [[2, PrivateConstants.SET_ANALOG_SCANNING_INTERVAL, interval.toNat]] },
          none)) ∧
    (¬(0 ≤ interval ∧ interval ≤ 255) →
      (set_analog_scan_interval st interval).2 =
        some (PyExc.runtimeError "Analog interval must be between 0 and 255") ∧
      (set_analog_scan_interval st interval).1.sent.countP (fun f => isScanFrame f) =
        st.sent.countP (fun f => isScanFrame f)) := by
  have hstop : (∀ b ∈ send_command_frame [PrivateConstants.STOP_ALL_REPORTS], b ≤ 255) =
      True :=
    eq_true (by decide)
  constructor
  · rintro ⟨hl, hr⟩
    have hall : ∀ b ∈ send_command_frame
        [PrivateConstants.SET_ANALOG_SCANNING_INTERVAL, interval.toNat], b ≤ 255 := by
      intro b hb
      simp only [send_command_frame, List.length_cons, List.length_nil,
        List.mem_cons, List.not_mem_nil, or_false] at hb
      rcases hb with rfl | rfl | rfl
      · omega
      · simp [PrivateConstants.SET_ANALOG_SCANNING_INTERVAL]
      · omega
    have hallT : (∀ b ∈ send_command_frame
        [PrivateConstants.SET_ANALOG_SCANNING_INTERVAL, interval.toNat], b ≤ 255) = True :=
      eq_true hall
    simp only [set_analog_scan_interval, if_pos (And.intro hl hr)]
    simp [send_command, hallT, h1, h2, h3, send_command_frame]
    exact ⟨by decide, hr⟩
  · intro hcond
    simp only [set_analog_scan_interval, if_neg hcond]
    cases hsoe : st.shutdown_on_exception
    · simp [raiseAfterShutdown, hsoe]
    · cases hcl : st.close_loop_on_shutdown <;>
        simp [raiseAfterShutdown, hsoe, shutdown, send_command, catchRS, hstop,
          h1, h2, h3, hcl, List.countP_append, isScanFrame, send_command_frame,
          PrivateConstants.STOP_ALL_REPORTS, PrivateConstants.SET_ANALOG_SCANNING_INTERVAL]

/-- Witness for C10 at concrete intervals 100 and 300. -/
theorem analog_scan_interval_range_witness :
    set_analog_scan_interval freshSerial 100 =
      ({ freshSerial with sent := freshSerial.sent ++
          [[2, PrivateConstants.SET_ANALOG_SCANNING_INTERVAL, (100 : Int).toNat]] },
        none) ∧
    (set_analog_scan_interval freshSerial 300).2 =
      some (PyExc.runtimeError "Analog interval must be between 0 and 255") :=
  ⟨(analog_scan_interval_range freshSerial 100 rfl rfl rfl).1 (by decide),
   ((analog_scan_interval_range freshSerial 300 rfl rfl rfl).2 (by decide)).1⟩
